import Mathlib

/-
Shallow embedding of receiver/splunkenterprisereceiver/scraper.go
(splunkScraper.scrape, scrapeLicenseUsageByIndex, unmarshallSearchReq,
scrapeIndexThroughput) from the opentelemetry-collector-contrib repository.

The HTTP transport (splunkEntClient.createRequest / createAPIRequest /
makeRequest) lives outside the given sources; each call's outcome is an
oracle input to the model (did request construction succeed, did transport
fail, what status / body came back).  Time is modelled in milliseconds as
a Nat: each successful makeRequest consumes the iteration's reqTime, the
fixed sleep `time.Sleep(2 * time.Second)` consumes 2000, and the check
`time.Since(start) > s.conf.MaxSearchWaitTime` compares the accumulated
elapsed time against a Nat bound.  Context cancellation is an optional
absolute instant cancelAt: the Go http client aborts a request whose
context is cancelled, so makeRequest fails once cancelAt has passed;
`time.Sleep` takes no context and is therefore uninterruptible, which the
model reflects by always advancing elapsed by the full 2000.
-/

namespace SplunkEnterpriseReceiver

/-- A decoded field/value pair from one search-job result row
(the receiver's field struct used as `f.FieldName` / `f.Value`
inside `scrapeLicenseUsageByIndex`). -/
structure SplunkField where
  FieldName : String
  Value : String
deriving Repr, DecidableEq

/-- The per-task scratch state `searchResponse`: `sr.Return` holds the most
recent HTTP status, `sr.Jobid` the job id once decoded, `sr.Fields` the
decoded field rows. -/
structure SearchResponse where
  search : String
  Return : Nat
  Jobid : Option String
  Fields : List SplunkField
deriving Repr, DecidableEq

/-- The distinct failure values that can be pushed into the
`scrapererror.ScrapeErrors` accumulator by the two scrape tasks.  Distinct
constructors model Go error values with distinct identities; in particular
`maxSearchWaitTimeExceeded` embeds the dedicated sentinel
`errMaxSearchWaitTimeExceeded = errors.New("Maximum search wait time exceeded for metric")`. -/
inductive ScrapeErr where
  | createRequestErr
  | transportFailure
  | cancellation
  | readBodyFailure
  | decodeFailure
  | parseFloatFailure (s : String)
  | maxSearchWaitTimeExceeded
deriving Repr, DecidableEq

/-- What one job-path HTTP response body holds, as seen through
`unmarshallSearchReq`: an empty body (`res.ContentLength == 0`), a body
whose `io.ReadAll` fails, a non-empty body that `xml.Unmarshal` rejects,
or a well-formed body decoding to an optional job id plus field rows. -/
inductive XmlBody where
  | empty
  | readFail
  | malformed
  | wellFormed (Jobid : Option String) (Fields : List SplunkField)
deriving Repr, DecidableEq

/-- One HTTP response on the job-polling path: status code plus body. -/
structure JobResponse where
  status : Nat
  body : XmlBody
deriving Repr, DecidableEq

/-- Embedding of `unmarshallSearchReq(res, sr)`: always copies the status
code into `sr.Return`; returns nil (no error) immediately when
`res.ContentLength == 0`; otherwise reads the body (possible read error),
then XML-decodes into `sr` (possible decode error).  Following
encoding/xml semantics of decoding into the existing struct, a present
job-id element replaces the old pointer and decoded field rows are
appended to the existing slice. -/
def unmarshallSearchReq (res : JobResponse) (sr : SearchResponse) :
    Except ScrapeErr SearchResponse :=
  let sr1 := { sr with Return := res.status }
  match res.body with
  | .empty => .ok sr1
  | .readFail => .error .readBodyFailure
  | .malformed => .error .decodeFailure
  | .wellFormed j f =>
      .ok { sr1 with
              Jobid := (match j with | some v => some v | none => sr1.Jobid),
              Fields := sr1.Fields ++ f }

/-- Oracle inputs for one iteration of the polling loop in
`scrapeLicenseUsageByIndex`: whether `createRequest` succeeds, how many
milliseconds the successful `makeRequest` round trip takes, whether
transport fails for a non-cancellation reason, and the response. -/
structure PollIter where
  createOk : Bool
  reqTime : Nat
  transportOk : Bool
  res : JobResponse
deriving Repr, DecidableEq

/-- Mutable state threaded through the polling loop: the `searchResponse`
scratch struct, the error accumulator, elapsed wall-clock milliseconds
since `start := time.Now()`, the number of `makeRequest` calls executed,
and one Bool per response body obtained from `makeRequest` recording
whether `res.Body.Close()` ran for it before the function moved on. -/
structure PollState where
  sr : SearchResponse
  errs : List ScrapeErr
  elapsed : Nat
  requests : Nat
  bodiesClosed : List Bool
deriving Repr, DecidableEq

/-- How the polling loop ended: `ready` is the `break` on
`sr.Return == 200 && sr.Jobid != nil`; `failed` is any `return` out of the
loop after `errs.Add`; `fuelOut` means the supplied oracle trace ended
while the code's unbounded `for` loop would have kept polling. -/
inductive PollExit where
  | ready
  | failed
  | fuelOut
deriving Repr, DecidableEq

/-- True once the surrounding context has been cancelled at time `t`. -/
def ctxCancelled (cancelAt : Option Nat) (t : Nat) : Bool :=
  match cancelAt with
  | none => false
  | some c => decide (c ≤ t)

/-- Embedding of the `for` loop of `scrapeLicenseUsageByIndex`, one
`PollIter` per iteration.  Faithful ordering per the source: createRequest
(error ⇒ add + return), makeRequest (error ⇒ add + return; a request on a
cancelled context fails with a cancellation error), `unmarshallSearchReq`
(error ⇒ add + return, and on this path `res.Body.Close()` is never
reached, recorded as `false` in `bodiesClosed`), then `res.Body.Close()`,
the `sr.Return == 200 && sr.Jobid != nil` break, the 2-second
`time.Sleep` when `sr.Return == 204` (uninterruptible: the full 2000 ms
always elapse), and the `time.Since(start) > MaxSearchWaitTime` check. -/
def pollLoop (maxWait : Nat) (cancelAt : Option Nat) (st : PollState) :
    List PollIter → PollState × PollExit
  | [] => (st, .fuelOut)
  | it :: rest =>
    if !it.createOk then
      ({ st with errs := st.errs ++ [.createRequestErr] }, .failed)
    else if ctxCancelled cancelAt st.elapsed then
      ({ st with errs := st.errs ++ [.cancellation],
                 requests := st.requests + 1 }, .failed)
    else if !it.transportOk then
      ({ st with errs := st.errs ++ [.transportFailure],
                 requests := st.requests + 1 }, .failed)
    else
      let st1 := { st with requests := st.requests + 1,
                           elapsed := st.elapsed + it.reqTime }
      match unmarshallSearchReq it.res st1.sr with
      | .error e =>
          ({ st1 with errs := st1.errs ++ [e],
                      bodiesClosed := st1.bodiesClosed ++ [false] }, .failed)
      | .ok sr =>
          let st2 := { st1 with sr := sr,
                                bodiesClosed := st1.bodiesClosed ++ [true] }
          if sr.Return = 200 ∧ sr.Jobid ≠ none then
            (st2, .ready)
          else
            let st3 := if sr.Return = 204
                       then { st2 with elapsed := st2.elapsed + 2000 }
                       else st2
            if st3.elapsed > maxWait then
              ({ st3 with errs := st3.errs ++ [.maxSearchWaitTimeExceeded] },
               .failed)
            else
              pollLoop maxWait cancelAt st3 rest

/-- Digit string to Nat, most significant first. -/
def natOfDigits (cs : List Char) : Nat :=
  cs.foldl (fun acc c => 10 * acc + (c.toNat - 48)) 0

/-- Models `strconv.ParseFloat(f.Value, 64)` followed by the Go conversion
`int64(v)` (truncation toward zero), restricted to plain decimal strings
`[+-]digits[.digits]`; every other string (including exponent or hex
forms, which the claims never exercise) is mapped to a parse failure.  On
plain decimals whose value float64 represents exactly enough to preserve
the integer part, truncation toward zero equals taking the integer-part
digits with the sign, which is what this returns. -/
def parseFloatInt64 (s : String) : Option Int :=
  let cs0 := s.toList
  let signed : Bool × List Char :=
    match cs0 with
    | c :: rest =>
        if c = '-' then (true, rest)
        else if c = '+' then (false, rest)
        else (false, cs0)
    | [] => (false, [])
  let neg := signed.1
  let cs := signed.2
  let ip := cs.takeWhile (fun c => c ≠ '.')
  let restAfter := cs.dropWhile (fun c => c ≠ '.')
  let fracDigits : List Char :=
    match restAfter with
    | [] => []
    | _ :: fd => fd
  let fracOk : Bool :=
    match restAfter with
    | [] => true
    | _ :: fd => fd.all Char.isDigit
  if ip.all Char.isDigit ∧ fracOk ∧ 0 < ip.length + fracDigits.length then
    some (if neg then -(natOfDigits ip : Int) else (natOfDigits ip : Int))
  else
    none

/-- A datapoint recorded by
`mb.RecordSplunkLicenseIndexUsageDataPoint(now, int64(v), indexName)`. -/
structure LicenseDatapoint where
  ts : Nat
  value : Int
  indexName : String
deriving Repr, DecidableEq

/-- Embedding of the result-recording loop of `scrapeLicenseUsageByIndex`
(`for _, f := range sr.Fields`): `indexName` starts as the given
accumulator (the zero value "" in the source), a field named "indexname"
updates it, a field named "By" parses its value (parse failure ⇒ error
added, processing continues) and records a datapoint with the current
`indexName`; every other field name is ignored.  Returns the errors added
and the datapoints recorded, in order. -/
def recordFields (now : Nat) (indexName : String) :
    List SplunkField → List ScrapeErr × List LicenseDatapoint
  | [] => ([], [])
  | f :: rest =>
    if f.FieldName = "indexname" then
      recordFields now f.Value rest
    else if f.FieldName = "By" then
      match parseFloatInt64 f.Value with
      | none =>
          (.parseFloatFailure f.Value :: (recordFields now indexName rest).1,
           (recordFields now indexName rest).2)
      | some v =>
          ((recordFields now indexName rest).1,
           { ts := now, value := v, indexName := indexName } ::
             (recordFields now indexName rest).2)
    else
      recordFields now indexName rest

/-- The fresh `searchResponse` built at the top of
`scrapeLicenseUsageByIndex` from `searchDict`. -/
def initialSearchResponse : SearchResponse :=
  { search := "SplunkLicenseIndexUsageSearch", Return := 0, Jobid := none,
    Fields := [] }

/-- Observable outcome of one `scrapeLicenseUsageByIndex` invocation. -/
structure LicenseOutcome where
  errs : List ScrapeErr
  dps : List LicenseDatapoint
  requests : Nat
  bodiesClosed : List Bool
  elapsed : Nat
deriving Repr, DecidableEq

/-- Embedding of `scrapeLicenseUsageByIndex`: returns immediately when the
`SplunkLicenseIndexUsage` metric is disabled; otherwise runs the polling
loop from a fresh `searchResponse` and, when the loop broke `ready`, walks
`sr.Fields` recording datapoints. -/
def scrapeLicenseUsageByIndex (enabled : Bool) (maxWait : Nat)
    (cancelAt : Option Nat) (now : Nat) (iters : List PollIter)
    (errs : List ScrapeErr) : LicenseOutcome :=
  if !enabled then
    { errs := errs, dps := [], requests := 0, bodiesClosed := [], elapsed := 0 }
  else
    match pollLoop maxWait cancelAt
      { sr := initialSearchResponse, errs := errs, elapsed := 0,
        requests := 0, bodiesClosed := [] } iters with
    | (st1, .ready) =>
        let rf := recordFields now "" st1.sr.Fields
        { errs := st1.errs ++ rf.1, dps := rf.2, requests := st1.requests,
          bodiesClosed := st1.bodiesClosed, elapsed := st1.elapsed }
    | (st1, _) =>
        { errs := st1.errs, dps := [], requests := st1.requests,
          bodiesClosed := st1.bodiesClosed, elapsed := st1.elapsed }

/-- The `Content` struct of one entry of the `indexThroughput` JSON
payload: a float64 average KB/s and a status label. -/
structure TContent where
  AvgKb : Rat
  Status : String
deriving Repr, DecidableEq

/-- One entry of the decoded `indexThroughput` response. -/
structure TEntry where
  Content : TContent
deriving Repr, DecidableEq

/-- The body handed to `json.Unmarshal` on the endpoint path: empty,
syntactically invalid JSON, or well-formed JSON decoding to entries. -/
inductive JsonBody where
  | empty
  | malformed
  | wellFormed (Entries : List TEntry)
deriving Repr, DecidableEq

/-- Models `json.Unmarshal(body, &it)`.  encoding/json validates syntax
before populating the target, so both an empty body (error: unexpected end
of JSON input) and a syntactically invalid body fail WITHOUT writing any
entries into `it`, which keeps its zero value (no entries). -/
def jsonUnmarshalIndexThroughput : JsonBody → Except ScrapeErr (List TEntry)
  | .empty => .error .decodeFailure
  | .malformed => .error .decodeFailure
  | .wellFormed es => .ok es

/-- Oracle inputs for one `scrapeIndexThroughput` invocation. -/
structure ThroughputInput where
  createOk : Bool
  transportOk : Bool
  readOk : Bool
  body : JsonBody
deriving Repr, DecidableEq

/-- A datapoint recorded by
`mb.RecordSplunkIndexerThroughputDataPoint(now, 1000*entry.Content.AvgKb, entry.Content.Status)`. -/
structure ThroughputDatapoint where
  ts : Nat
  value : Rat
  status : String
deriving Repr, DecidableEq

/-- Observable outcome of one `scrapeIndexThroughput` invocation;
`requests` counts `makeRequest` executions. -/
structure ThroughputOutcome where
  errs : List ScrapeErr
  dps : List ThroughputDatapoint
  requests : Nat
deriving Repr, DecidableEq

/-- Embedding of `scrapeIndexThroughput`, faithful to its control flow:
the `createAPIRequest` error branch adds the error but does NOT return, so
`makeRequest` runs regardless; a `makeRequest` error adds and returns; the
`io.ReadAll` error branch adds but does not return; the `json.Unmarshal`
error branch adds but does not return, after which the range over
`it.Entries` iterates the zero-value slice (no entries, hence no
datapoints). -/
def scrapeIndexThroughput (enabled : Bool) (now : Nat)
    (inp : ThroughputInput) (errs : List ScrapeErr) : ThroughputOutcome :=
  if !enabled then
    { errs := errs, dps := [], requests := 0 }
  else
    let errs1 := if inp.createOk then errs else errs ++ [.createRequestErr]
    if !inp.transportOk then
      { errs := errs1 ++ [.transportFailure], dps := [], requests := 1 }
    else
      let errs2 := if inp.readOk then errs1 else errs1 ++ [.readBodyFailure]
      match jsonUnmarshalIndexThroughput inp.body with
      | .error e => { errs := errs2 ++ [e], dps := [], requests := 1 }
      | .ok es =>
          { errs := errs2,
            dps := es.map (fun en =>
              { ts := now, value := 1000 * en.Content.AvgKb,
                status := en.Content.Status }),
            requests := 1 }

/-- The configuration surface the scrape cycle consumes: the two per-task
enabled flags and `MaxSearchWaitTime` (milliseconds). -/
structure ScrapeConfig where
  licenseEnabled : Bool
  throughputEnabled : Bool
  MaxSearchWaitTime : Nat
deriving Repr, DecidableEq

/-- Result of one scrape cycle: the datapoints each task recorded into the
metrics builder and the final error accumulator; `errs.Combine()` yields
nil exactly when the list is empty. -/
structure ScrapeResult where
  licenseDps : List LicenseDatapoint
  throughputDps : List ThroughputDatapoint
  errs : List ScrapeErr
deriving Repr, DecidableEq

/-- Embedding of `splunkScraper.scrape`: one timestamp `now` captured at
cycle start, a fresh empty error accumulator, then
`scrapeLicenseUsageByIndex` and `scrapeIndexThroughput` run in that fixed
order, each threading the shared accumulator. -/
def scrape (cfg : ScrapeConfig) (cancelAt : Option Nat) (now : Nat)
    (licIters : List PollIter) (thrInput : ThroughputInput) : ScrapeResult :=
  let o1 := scrapeLicenseUsageByIndex cfg.licenseEnabled
    cfg.MaxSearchWaitTime cancelAt now licIters []
  let o2 := scrapeIndexThroughput cfg.throughputEnabled now thrInput o1.errs
  { licenseDps := o1.dps, throughputDps := o2.dps, errs := o2.errs }

/-- The value of the most recent field named "indexname" in the list, or
the default `d` when there is none (specification-side helper for the
dimension rule of the license-usage field mapping). -/
def lastIndexnameD (d : String) : List SplunkField → String
  | [] => d
  | f :: rest => lastIndexnameD (if f.FieldName = "indexname" then f.Value else d) rest

/-- Specification-side description of the license-usage field mapping,
walking the suffix still to be processed while carrying `pre`, the exact
list of fields that precede it: the datapoint produced by a "By" field
whose value parses carries as dimension the value of the most recent
"indexname" field among the fields preceding it, or "" when no
"indexname" field precedes it; every other field produces nothing. -/
def specByDatapointsFrom (now : Nat) (pre : List SplunkField) :
    List SplunkField → List LicenseDatapoint
  | [] => []
  | f :: rest =>
    if f.FieldName = "By" then
      match parseFloatInt64 f.Value with
      | some v =>
          { ts := now, value := v, indexName := lastIndexnameD "" pre } ::
            specByDatapointsFrom now (pre ++ [f]) rest
      | none => specByDatapointsFrom now (pre ++ [f]) rest
    else
      specByDatapointsFrom now (pre ++ [f]) rest

/-- Specification-side description of the license-usage field mapping for
a whole field sequence: each "By" datapoint takes as its dimension the
most recent preceding "indexname" value, defaulting to the empty string. -/
def specByDatapoints (now : Nat) (fields : List SplunkField) :
    List LicenseDatapoint :=
  specByDatapointsFrom now [] fields

/-- C1: the claim states that on every exit path of one poll iteration the
response body obtained from makeRequest is closed before the function
returns.  This fails on the decode-failure path: `res.Body.Close()` sits
after the `unmarshallSearchReq` error check, so when a 200 response
carries a non-empty body that fails XML parsing the function returns with
the body never closed (`bodiesClosed = [false]`) while the decode failure
is recorded. -/
theorem C1_decode_failure_path_leaks_response_body :
    (scrapeLicenseUsageByIndex true 60000 none 0
      [{ createOk := true, reqTime := 5, transportOk := true,
         res := { status := 200, body := .malformed } }] []).bodiesClosed
      = [false]
    ∧ (scrapeLicenseUsageByIndex true 60000 none 0
      [{ createOk := true, reqTime := 5, transportOk := true,
         res := { status := 200, body := .malformed } }] []).errs
      = [.decodeFailure] :=
  ⟨rfl, rfl⟩

/-- C2: the claim states that a request-construction failure in
`scrapeIndexThroughput` ends the task immediately with no further request
executed.  In the source the `createAPIRequest` error branch adds the
error but has no return, so `makeRequest` is still executed with the nil
request: here the outcome shows one request executed (`requests = 1`) and
a transport failure recorded after the construction failure. -/
theorem C2_create_request_failure_does_not_end_task :
    scrapeIndexThroughput true 0
      { createOk := false, transportOk := false, readOk := true,
        body := .wellFormed [] } [] =
    { errs := [.createRequestErr, .transportFailure], dps := [],
      requests := 1 } :=
  rfl

/-- Elimination principle for a polling prefix that is still running: when
the loop has neither broken ready nor returned within `pre` (exit
`fuelOut`), no error was added along the way (every error branch exits),
and running the loop on `pre ++ rest` is running it on `rest` from the
state the prefix reached. -/
theorem pollLoop_fuelOut_elim (maxWait : Nat) (cancelAt : Option Nat) :
    ∀ (pre : List PollIter) (st st1 : PollState),
      pollLoop maxWait cancelAt st pre = (st1, .fuelOut) →
      st1.errs = st.errs ∧
      ∀ rest, pollLoop maxWait cancelAt st (pre ++ rest) =
        pollLoop maxWait cancelAt st1 rest := by
  intro pre
  induction pre with
  | nil =>
      intro st st1 h
      rw [pollLoop] at h
      injection h with h1 h2
      subst h1
      exact ⟨rfl, fun rest => by rw [List.nil_append]⟩
  | cons itx pre ih =>
      intro st st1 h
      obtain ⟨co, rt, tro, res⟩ := itx
      cases co with
      | false =>
          rw [pollLoop] at h
          simp at h
      | true =>
          cases hcc : ctxCancelled cancelAt st.elapsed with
          | true =>
              rw [pollLoop] at h
              simp [hcc] at h
          | false =>
              cases tro with
              | false =>
                  rw [pollLoop] at h
                  simp [hcc] at h
              | true =>
                  rw [pollLoop] at h
                  simp only [Bool.not_true, Bool.false_eq_true, if_false,
                    hcc] at h
                  split at h
                  next e heq =>
                    simp at h
                  next sr' heq =>
                    split at h
                    next hrdy =>
                      simp at h
                    next hrdy =>
                      split at h
                      next h204 =>
                        by_cases htm : maxWait < st.elapsed + rt + 2000
                        · rw [if_pos htm] at h
                          simp at h
                        · rw [if_neg htm] at h
                          obtain ⟨e1, e2⟩ := ih _ _ h
                          refine ⟨e1, fun rest => ?_⟩
                          rw [List.cons_append, pollLoop]
                          simp only [Bool.not_true, Bool.false_eq_true,
                            if_false, hcc, heq]
                          rw [if_neg hrdy, if_pos h204]
                          split
                          next htm2 => exact absurd htm2 htm
                          next htm2 => exact e2 rest
                      next h204 =>
                        by_cases htm : maxWait < st.elapsed + rt
                        · rw [if_pos htm] at h
                          simp at h
                        · rw [if_neg htm] at h
                          obtain ⟨e1, e2⟩ := ih _ _ h
                          refine ⟨e1, fun rest => ?_⟩
                          rw [List.cons_append, pollLoop]
                          simp only [Bool.not_true, Bool.false_eq_true,
                            if_false, hcc, heq]
                          rw [if_neg hrdy, if_neg h204]
                          split
                          next htm2 => exact absurd htm2 htm
                          next htm2 => exact e2 rest

/-- C4: for every invocation where a non-empty response body fails
structural parsing, the failing task adds a decode failure and records
zero datapoints, while the other task of the cycle still runs and may
succeed.  First conjunct, job path, universal over invocations: for any
still-running polling prefix `pre`, any iteration whose `makeRequest`
delivers a body (construction and transport succeed, context not yet
cancelled) with any status and a malformed XML payload, and any
continuation `rest`, the cycle ends the license-usage task with exactly
the decode failure and no license datapoints, and the sibling
index-throughput task still records every one of its (arbitrary)
entries.  Second conjunct, endpoint path, universal over invocations:
for any license-task trace and any combination of request-construction
and body-read outcomes, a malformed JSON body leaves the throughput task
with zero datapoints and appends the decode failure after whatever
errors came before, while the license task's datapoints are exactly
those of its own run, untouched by the sibling's failure. -/
theorem C4_decode_failure_is_isolated_to_its_task (maxWait : Nat)
    (cancelAt : Option Nat) (now : Nat)
    (pre : List PollIter) (st1 : PollState) (it : PollIter)
    (rest : List PollIter) (es : List TEntry)
    (hpre : pollLoop maxWait cancelAt
      { sr := initialSearchResponse, errs := [], elapsed := 0,
        requests := 0, bodiesClosed := [] } pre = (st1, .fuelOut))
    (hc : it.createOk = true) (ht : it.transportOk = true)
    (hcc : ctxCancelled cancelAt st1.elapsed = false)
    (hb : it.res.body = .malformed) :
    scrape { licenseEnabled := true, throughputEnabled := true,
             MaxSearchWaitTime := maxWait } cancelAt now (pre ++ it :: rest)
      { createOk := true, transportOk := true, readOk := true,
        body := .wellFormed es } =
      { licenseDps := [],
        throughputDps := es.map (fun en =>
          { ts := now, value := 1000 * en.Content.AvgKb,
            status := en.Content.Status }),
        errs := [.decodeFailure] }
    ∧ ∀ (licIters : List PollIter) (co ro : Bool),
        (scrape { licenseEnabled := true, throughputEnabled := true,
                  MaxSearchWaitTime := maxWait } cancelAt now licIters
          { createOk := co, transportOk := true, readOk := ro,
            body := .malformed }).throughputDps = []
        ∧ (scrape { licenseEnabled := true, throughputEnabled := true,
                    MaxSearchWaitTime := maxWait } cancelAt now licIters
            { createOk := co, transportOk := true, readOk := ro,
              body := .malformed }).licenseDps =
          (scrapeLicenseUsageByIndex true maxWait cancelAt now licIters []).dps
        ∧ (scrape { licenseEnabled := true, throughputEnabled := true,
                    MaxSearchWaitTime := maxWait } cancelAt now licIters
            { createOk := co, transportOk := true, readOk := ro,
              body := .malformed }).errs =
          (if ro then
             (if co then
               (scrapeLicenseUsageByIndex true maxWait cancelAt now
                 licIters []).errs
              else
               (scrapeLicenseUsageByIndex true maxWait cancelAt now
                 licIters []).errs ++ [.createRequestErr])
           else
             (if co then
               (scrapeLicenseUsageByIndex true maxWait cancelAt now
                 licIters []).errs
              else
               (scrapeLicenseUsageByIndex true maxWait cancelAt now
                 licIters []).errs ++ [.createRequestErr])
               ++ [.readBodyFailure])
            ++ [.decodeFailure] := by
  constructor
  · obtain ⟨herrs, happ⟩ := pollLoop_fuelOut_elim maxWait cancelAt pre _ st1 hpre
    obtain ⟨co, rt, tro, res⟩ := it
    obtain ⟨stat, body⟩ := res
    simp only at hc ht hb
    subst hc
    subst ht
    subst hb
    have hstep : pollLoop maxWait cancelAt st1
        ({ createOk := true, reqTime := rt, transportOk := true,
           res := { status := stat, body := .malformed } } :: rest) =
        ({ st1 with errs := st1.errs ++ [.decodeFailure],
                    elapsed := st1.elapsed + rt,
                    requests := st1.requests + 1,
                    bodiesClosed := st1.bodiesClosed ++ [false] }, .failed) := by
      rw [pollLoop]
      simp only [Bool.not_true, Bool.false_eq_true, if_false, hcc,
        unmarshallSearchReq]
    have hpoll := (happ _).trans hstep
    simp only [scrape, scrapeLicenseUsageByIndex, Bool.not_true,
      Bool.false_eq_true, if_false, hpoll, scrapeIndexThroughput,
      jsonUnmarshalIndexThroughput]
    simp [herrs]
  · intro licIters co ro
    cases co <;> cases ro <;> exact ⟨rfl, rfl, rfl⟩

/-- Witness for the decode-failure isolation theorem: a clean 204 prefix,
then a 200 response with a malformed body, with the endpoint conjunct
also exercised at a concrete invocation. -/
theorem C4_decode_failure_is_isolated_to_its_task_witness :
    (pollLoop 60000 none
      { sr := initialSearchResponse, errs := [], elapsed := 0,
        requests := 0, bodiesClosed := [] }
      [{ createOk := true, reqTime := 0, transportOk := true,
         res := { status := 204, body := .empty } }] =
      ({ sr := { search := "SplunkLicenseIndexUsageSearch", Return := 204,
                 Jobid := none, Fields := [] },
         errs := [], elapsed := 2000, requests := 1,
         bodiesClosed := [true] }, .fuelOut))
    ∧ ctxCancelled none 2000 = false
    ∧ (scrape { licenseEnabled := true, throughputEnabled := true,
                MaxSearchWaitTime := 60000 } none 0
        ([{ createOk := true, reqTime := 0, transportOk := true,
            res := { status := 204, body := .empty } }] ++
          { createOk := true, reqTime := 0, transportOk := true,
            res := { status := 200, body := .malformed } } :: [])
        { createOk := true, transportOk := true, readOk := true,
          body := .wellFormed [] } =
        { licenseDps := [], throughputDps := [],
          errs := [.decodeFailure] })
    ∧ (scrape { licenseEnabled := true, throughputEnabled := true,
                MaxSearchWaitTime := 60000 } none 0 []
        { createOk := true, transportOk := true, readOk := true,
          body := .malformed }).throughputDps = [] :=
  ⟨by decide, rfl,
   (C4_decode_failure_is_isolated_to_its_task 60000 none 0
      [{ createOk := true, reqTime := 0, transportOk := true,
         res := { status := 204, body := .empty } }]
      { sr := { search := "SplunkLicenseIndexUsageSearch", Return := 204,
                Jobid := none, Fields := [] },
        errs := [], elapsed := 2000, requests := 1, bodiesClosed := [true] }
      { createOk := true, reqTime := 0, transportOk := true,
        res := { status := 200, body := .malformed } }
      [] [] (by decide) rfl rfl rfl rfl).1,
   ((C4_decode_failure_is_isolated_to_its_task 60000 none 0
      [{ createOk := true, reqTime := 0, transportOk := true,
         res := { status := 204, body := .empty } }]
      { sr := { search := "SplunkLicenseIndexUsageSearch", Return := 204,
                Jobid := none, Fields := [] },
        errs := [], elapsed := 2000, requests := 1, bodiesClosed := [true] }
      { createOk := true, reqTime := 0, transportOk := true,
        res := { status := 200, body := .malformed } }
      [] [] (by decide) rfl rfl rfl rfl).2 [] true true).1⟩

/-- C5: the claim states that a cancellation arriving while the poller is
in the fixed 2-second sleep aborts the sleep promptly.  The source sleeps
with `time.Sleep(2 * time.Second)`, which takes no context and cannot be
interrupted: with the context cancelled at t = 1 ms, during the sleep
that spans 0..2000 ms after the first 204, the poller still completes the
full sleep (final elapsed = 2000) and the cancellation failure surfaces
only at the next request of the following iteration (`requests = 2`). -/
theorem C5_cancellation_during_sleep_completes_full_sleep :
    scrapeLicenseUsageByIndex true 60000 (some 1) 0
      [{ createOk := true, reqTime := 0, transportOk := true,
         res := { status := 204, body := .empty } },
       { createOk := true, reqTime := 0, transportOk := true,
         res := { status := 204, body := .empty } }] [] =
    { errs := [.cancellation], dps := [], requests := 2,
      bodiesClosed := [true], elapsed := 2000 } :=
  rfl

/-- C6: a task whose enabled flag is false issues no HTTP request, adds no
error, and records no datapoint: both task functions return with the
error accumulator exactly as given, no datapoints, and a request count of
zero. -/
theorem C6_disabled_task_leaves_state_untouched (maxWait : Nat)
    (cancelAt : Option Nat) (now : Nat) (iters : List PollIter)
    (inp : ThroughputInput) (errs : List ScrapeErr) :
    scrapeLicenseUsageByIndex false maxWait cancelAt now iters errs =
      { errs := errs, dps := [], requests := 0, bodiesClosed := [],
        elapsed := 0 }
    ∧ scrapeIndexThroughput false now inp errs =
      { errs := errs, dps := [], requests := 0 } :=
  ⟨rfl, rfl⟩

/-- C7, counterexample: the claim states that an empty response body never
produces a decode error on either path.  On the endpoint path the source
passes the body to `json.Unmarshal` unconditionally, and encoding/json
rejects empty input (unexpected end of JSON input), so an empty body
yields a decode failure in the accumulator. -/
theorem C7_counterexample_empty_body_errors_on_endpoint_path :
    (scrapeIndexThroughput true 0
      { createOk := true, transportOk := true, readOk := true,
        body := .empty } []).errs = [.decodeFailure] :=
  rfl

/-- C7, amended: on the job path an empty body (ContentLength zero) is
never a decode error — `unmarshallSearchReq` returns nil after recording
the status code; on the endpoint path an empty body is fed to the JSON
decoder and always yields a decode failure (and no datapoints). -/
theorem C7_empty_body_job_path_ok_endpoint_path_decode_error :
    (∀ (status : Nat) (sr : SearchResponse),
        unmarshallSearchReq { status := status, body := .empty } sr =
          .ok { sr with Return := status })
    ∧ (∀ (now : Nat) (errs : List ScrapeErr),
        (scrapeIndexThroughput true now
          { createOk := true, transportOk := true, readOk := true,
            body := .empty } errs).errs = errs ++ [.decodeFailure]
        ∧ (scrapeIndexThroughput true now
          { createOk := true, transportOk := true, readOk := true,
            body := .empty } errs).dps = []) :=
  ⟨fun _ _ => rfl, fun _ _ => ⟨rfl, rfl⟩⟩

/-- Auxiliary invariant for the timeout analysis: on a trace whose polls
all come back as clean 204/empty responses, once the time budget is
certain to be exhausted within the trace the loop ends on the timeout
branch, adding exactly the `maxSearchWaitTimeExceeded` error. -/
theorem pollLoop_all204_timeout (maxWait : Nat) :
    ∀ (iters : List PollIter) (st : PollState),
      (∀ it ∈ iters, it.createOk = true ∧ it.transportOk = true ∧
          it.res = { status := 204, body := .empty }) →
      st.elapsed ≤ maxWait →
      maxWait < 2000 * iters.length + st.elapsed →
      ∃ st', pollLoop maxWait none st iters = (st', .failed) ∧
        st'.errs = st.errs ++ [.maxSearchWaitTimeExceeded] := by
  intro iters
  induction iters with
  | nil =>
      intro st _ hle hlt
      simp only [List.length_nil, Nat.mul_zero, Nat.zero_add] at hlt
      omega
  | cons it rest ih =>
      intro st hall hle hlt
      obtain ⟨hc, ht, hr⟩ := hall it (List.mem_cons_self it rest)
      obtain ⟨co, rt, tro, res⟩ := it
      simp only at hc ht hr
      subst hc
      subst ht
      subst hr
      rw [pollLoop]
      simp only [Bool.not_true, Bool.false_eq_true, if_false, ctxCancelled,
        unmarshallSearchReq]
      rw [if_neg (by simp : ¬(204 = 200 ∧ st.sr.Jobid ≠ none))]
      simp only [if_true]
      by_cases hcase : st.elapsed + rt + 2000 > maxWait
      · exact ⟨_, by rw [if_pos hcase], rfl⟩
      · rw [if_neg hcase]
        refine ih _ ?_ ?_ ?_
        · intro x hx
          exact hall x (List.mem_cons_of_mem _ hx)
        · show st.elapsed + rt + 2000 ≤ maxWait
          omega
        · show maxWait < 2000 * rest.length + (st.elapsed + rt + 2000)
          simp only [List.length_cons] at hlt
          omega

/-- C3: for every run of the job poller in which every poll response is a
clean HTTP 204 with empty body (trace long enough that the accumulated
time, at least 2000 ms per iteration, must exceed the configured maximum
wait), the task adds exactly the dedicated
`errMaxSearchWaitTimeExceeded` failure — a constructor distinct from
every transport or decode error — to the accumulator, and records zero
datapoints. -/
theorem C3_all_204_until_max_wait (maxWait now : Nat) (iters : List PollIter)
    (errs : List ScrapeErr)
    (hall : ∀ it ∈ iters, it.createOk = true ∧ it.transportOk = true ∧
        it.res = { status := 204, body := .empty })
    (hlen : maxWait < 2000 * iters.length) :
    (scrapeLicenseUsageByIndex true maxWait none now iters errs).errs =
      errs ++ [.maxSearchWaitTimeExceeded]
    ∧ (scrapeLicenseUsageByIndex true maxWait none now iters errs).dps = [] := by
  obtain ⟨st', h1, h2⟩ := pollLoop_all204_timeout maxWait iters
    { sr := initialSearchResponse, errs := errs, elapsed := 0, requests := 0,
      bodiesClosed := [] }
    hall (Nat.zero_le _) (by simpa using hlen)
  simp only [scrapeLicenseUsageByIndex, Bool.not_true, Bool.false_eq_true,
    if_false, h1]
  exact ⟨h2, by trivial⟩

/-- Witness for the timeout theorem at a concrete input: maximum wait of
100 ms (the spec's maximum-wait test value) and a single clean 204 poll. -/
theorem C3_all_204_until_max_wait_witness :
    (∀ it ∈ ([{ createOk := true, reqTime := 0, transportOk := true,
                res := { status := 204, body := .empty } }] : List PollIter),
        it.createOk = true ∧ it.transportOk = true ∧
          it.res = { status := 204, body := .empty })
    ∧ 100 < 2000 * ([{ createOk := true, reqTime := 0, transportOk := true,
                       res := { status := 204, body := .empty } }] :
        List PollIter).length
    ∧ ((scrapeLicenseUsageByIndex true 100 none 0
        [{ createOk := true, reqTime := 0, transportOk := true,
           res := { status := 204, body := .empty } }] []).errs =
        [] ++ [.maxSearchWaitTimeExceeded]
      ∧ (scrapeLicenseUsageByIndex true 100 none 0
        [{ createOk := true, reqTime := 0, transportOk := true,
           res := { status := 204, body := .empty } }] []).dps = []) :=
  ⟨by decide, by decide,
    C3_all_204_until_max_wait 100 0 _ [] (by decide) (by decide)⟩

/-- Every datapoint produced by the field-recording loop carries the
timestamp it was given. -/
theorem recordFields_mem_ts (now : Nat) :
    ∀ (fields : List SplunkField) (acc : String) (dp : LicenseDatapoint),
      dp ∈ (recordFields now acc fields).2 → dp.ts = now := by
  intro fields
  induction fields with
  | nil =>
      intro acc dp h
      simp [recordFields] at h
  | cons f rest ih =>
      intro acc dp h
      rw [recordFields] at h
      by_cases h1 : f.FieldName = "indexname"
      · rw [if_pos h1] at h
        exact ih _ _ h
      · rw [if_neg h1] at h
        by_cases h2 : f.FieldName = "By"
        · rw [if_pos h2] at h
          cases hp : parseFloatInt64 f.Value with
          | none =>
              rw [hp] at h
              exact ih _ _ h
          | some v =>
              rw [hp] at h
              simp only [List.mem_cons] at h
              rcases h with h | h
              · rw [h]
              · exact ih _ _ h
        · rw [if_neg h2] at h
          exact ih _ _ h

/-- Every datapoint recorded by the license-usage task carries the cycle
timestamp passed into the task. -/
theorem scrapeLicense_dps_ts (enabled : Bool) (maxWait : Nat)
    (cancelAt : Option Nat) (now : Nat) (iters : List PollIter)
    (errs : List ScrapeErr) (dp : LicenseDatapoint)
    (h : dp ∈ (scrapeLicenseUsageByIndex enabled maxWait cancelAt now iters
        errs).dps) : dp.ts = now := by
  cases enabled with
  | false =>
      simp [scrapeLicenseUsageByIndex] at h
  | true =>
      rcases hp : pollLoop maxWait cancelAt
        { sr := initialSearchResponse, errs := errs, elapsed := 0,
          requests := 0, bodiesClosed := [] } iters with ⟨st1, ex⟩
      cases ex with
      | ready =>
          simp only [scrapeLicenseUsageByIndex, Bool.not_true,
            Bool.false_eq_true, if_false, hp] at h
          exact recordFields_mem_ts now _ _ _ h
      | failed =>
          simp only [scrapeLicenseUsageByIndex, Bool.not_true,
            Bool.false_eq_true, if_false, hp] at h
          simp at h
      | fuelOut =>
          simp only [scrapeLicenseUsageByIndex, Bool.not_true,
            Bool.false_eq_true, if_false, hp] at h
          simp at h

/-- Every datapoint recorded by the index-throughput task carries the
cycle timestamp passed into the task. -/
theorem scrapeThroughput_dps_ts (enabled : Bool) (now : Nat)
    (inp : ThroughputInput) (errs : List ScrapeErr) (dp : ThroughputDatapoint)
    (h : dp ∈ (scrapeIndexThroughput enabled now inp errs).dps) :
    dp.ts = now := by
  cases enabled with
  | false =>
      simp [scrapeIndexThroughput] at h
  | true =>
      cases htr : inp.transportOk with
      | false =>
          simp [scrapeIndexThroughput, htr] at h
      | true =>
          cases hj : jsonUnmarshalIndexThroughput inp.body with
          | error e =>
              simp [scrapeIndexThroughput, htr, hj] at h
          | ok es =>
              simp [scrapeIndexThroughput, htr, hj] at h
              obtain ⟨en, _, hdp⟩ := h
              rw [← hdp]

/-- C9: `scrape` captures a single timestamp `now` at cycle start, and
every datapoint either task records into the metrics builder during that
cycle carries exactly that timestamp. -/
theorem C9_shared_timestamp (cfg : ScrapeConfig) (cancelAt : Option Nat)
    (now : Nat) (licIters : List PollIter) (thrInput : ThroughputInput) :
    (∀ dp ∈ (scrape cfg cancelAt now licIters thrInput).licenseDps,
        dp.ts = now)
    ∧ (∀ dp ∈ (scrape cfg cancelAt now licIters thrInput).throughputDps,
        dp.ts = now) := by
  constructor
  · intro dp h
    exact scrapeLicense_dps_ts _ _ _ _ _ _ dp h
  · intro dp h
    exact scrapeThroughput_dps_ts _ _ _ _ dp h

/-- Witness for the shared-timestamp theorem at a concrete cycle whose
two tasks both record a datapoint. -/
theorem C9_shared_timestamp_witness :
    ({ ts := 7, value := 42, indexName := "main" } : LicenseDatapoint).ts = 7
    ∧ ({ ts := 7, value := 1000 * 2, status := "ok" } : ThroughputDatapoint).ts
        = 7 :=
  ⟨(C9_shared_timestamp
      { licenseEnabled := true, throughputEnabled := true,
        MaxSearchWaitTime := 60000 } none 7
      [{ createOk := true, reqTime := 0, transportOk := true,
         res := { status := 200,
                  body := .wellFormed (some "job1")
                    [{ FieldName := "indexname", Value := "main" },
                     { FieldName := "By", Value := "42.0" }] } }]
      { createOk := true, transportOk := true, readOk := true,
        body := .wellFormed [{ Content := { AvgKb := 2, Status := "ok" } }] }).1
      { ts := 7, value := 42, indexName := "main" } (by decide),
   (C9_shared_timestamp
      { licenseEnabled := true, throughputEnabled := true,
        MaxSearchWaitTime := 60000 } none 7
      [{ createOk := true, reqTime := 0, transportOk := true,
         res := { status := 200,
                  body := .wellFormed (some "job1")
                    [{ FieldName := "indexname", Value := "main" },
                     { FieldName := "By", Value := "42.0" }] } }]
      { createOk := true, transportOk := true, readOk := true,
        body := .wellFormed [{ Content := { AvgKb := 2, Status := "ok" } }] }).2
      { ts := 7, value := 1000 * 2, status := "ok" }
      (by exact List.Mem.head _)⟩

/-- Appending one field on the right updates the most-recent-indexname
value exactly when that field is named "indexname". -/
theorem lastIndexnameD_append :
    ∀ (l : List SplunkField) (d : String) (f : SplunkField),
      lastIndexnameD d (l ++ [f]) =
        if f.FieldName = "indexname" then f.Value else lastIndexnameD d l := by
  intro l
  induction l with
  | nil =>
      intro d f
      rfl
  | cons g rest ih =>
      intro d f
      rw [List.cons_append, lastIndexnameD, ih, lastIndexnameD]

/-- The datapoints of the source field-recording loop, started with the
most-recent-indexname value of the already-processed prefix, agree with
the specification-side description of the remaining fields. -/
theorem recordFields_snd_spec (now : Nat) :
    ∀ (rest : List SplunkField) (pre : List SplunkField),
      (recordFields now (lastIndexnameD "" pre) rest).2 =
        specByDatapointsFrom now pre rest := by
  intro rest
  induction rest with
  | nil =>
      intro pre
      rfl
  | cons f rest ih =>
      intro pre
      by_cases h1 : f.FieldName = "indexname"
      · have h2 : ¬f.FieldName = "By" := by simp [h1]
        rw [recordFields, if_pos h1, specByDatapointsFrom, if_neg h2]
        have hv : f.Value = lastIndexnameD "" (pre ++ [f]) := by
          rw [lastIndexnameD_append, if_pos h1]
        rw [hv]
        exact ih (pre ++ [f])
      · have hpre : lastIndexnameD "" (pre ++ [f]) = lastIndexnameD "" pre := by
          rw [lastIndexnameD_append, if_neg h1]
        have key : (recordFields now (lastIndexnameD "" pre) rest).2 =
            specByDatapointsFrom now (pre ++ [f]) rest := by
          rw [← hpre]
          exact ih (pre ++ [f])
        by_cases h2 : f.FieldName = "By"
        · rw [recordFields, if_neg h1, if_pos h2, specByDatapointsFrom,
            if_pos h2]
          cases hp : parseFloatInt64 f.Value with
          | none => exact key
          | some v =>
              exact congrArg
                (List.cons ({ ts := now, value := v,
                              indexName := lastIndexnameD "" pre } :
                  LicenseDatapoint)) key
        · rw [recordFields, if_neg h1, if_neg h2, specByDatapointsFrom,
            if_neg h2]
          exact key

/-- C10: in the license-usage field mapping, started from the source's
zero-value accumulator, the produced datapoints are exactly those of the
specification mapping in which each datapoint produced by a "By" field
uses as its dimension the value of the most recent preceding "indexname"
field, and a "By" field with no preceding "indexname" field is recorded
with the empty string as its dimension rather than skipped or reported
as an error. -/
theorem C10_by_dimension_most_recent_indexname (now : Nat)
    (fields : List SplunkField) :
    (recordFields now "" fields).2 = specByDatapoints now fields :=
  recordFields_snd_spec now fields []

/-- C8: with the license-usage task enabled, a transport that returns 204
once and then 200 with a job id and the fields
`[{indexname: "main"}, {By: "42.0"}]` (plus an unrecognized field, which
is ignored) makes the cycle record exactly one datapoint with dimension
"main" and value 42 — the field value parsed as a float and truncated to
an integer — and the cycle's combined error is empty.  Requires only
that the configured maximum wait admits the one 2-second sleep. -/
theorem C8_end_to_end (maxWait now : Nat) (thrInput : ThroughputInput)
    (h : 2000 ≤ maxWait) :
    scrape { licenseEnabled := true, throughputEnabled := false,
             MaxSearchWaitTime := maxWait } none now
      [{ createOk := true, reqTime := 0, transportOk := true,
         res := { status := 204, body := .empty } },
       { createOk := true, reqTime := 0, transportOk := true,
         res := { status := 200,
                  body := .wellFormed (some "job1")
                    [{ FieldName := "indexname", Value := "main" },
                     { FieldName := "By", Value := "42.0" },
                     { FieldName := "splunk_server", Value := "x" }] } }]
      thrInput =
    { licenseDps := [{ ts := now, value := 42, indexName := "main" }],
      throughputDps := [], errs := [] } := by
  have hstep : pollLoop maxWait none
      { sr := initialSearchResponse, errs := [], elapsed := 0, requests := 0,
        bodiesClosed := [] }
      [{ createOk := true, reqTime := 0, transportOk := true,
         res := { status := 204, body := .empty } },
       { createOk := true, reqTime := 0, transportOk := true,
         res := { status := 200,
                  body := .wellFormed (some "job1")
                    [{ FieldName := "indexname", Value := "main" },
                     { FieldName := "By", Value := "42.0" },
                     { FieldName := "splunk_server", Value := "x" }] } }] =
      ({ sr := { search := "SplunkLicenseIndexUsageSearch", Return := 200,
                 Jobid := some "job1",
                 Fields := [{ FieldName := "indexname", Value := "main" },
                            { FieldName := "By", Value := "42.0" },
                            { FieldName := "splunk_server", Value := "x" }] },
         errs := [], elapsed := 2000, requests := 2,
         bodiesClosed := [true, true] }, .ready) := by
    rw [pollLoop]
    simp only [Bool.not_true, Bool.false_eq_true, if_false, ctxCancelled,
      unmarshallSearchReq, initialSearchResponse]
    rw [if_neg (by simp : ¬((204 : Nat) = 200 ∧ (none : Option String) ≠ none))]
    simp only [if_true]
    rw [if_neg (show ¬(0 + 0 + 2000 > maxWait) by omega)]
    rfl
  simp only [scrape, scrapeLicenseUsageByIndex, Bool.not_true,
    Bool.false_eq_true, if_false, hstep, scrapeIndexThroughput,
    Bool.not_false, if_true]
  rfl

/-- Witness for the end-to-end theorem at the default-sized maximum wait
of 60000 ms. -/
theorem C8_end_to_end_witness :
    2000 ≤ 60000
    ∧ scrape { licenseEnabled := true, throughputEnabled := false,
               MaxSearchWaitTime := 60000 } none 0
        [{ createOk := true, reqTime := 0, transportOk := true,
           res := { status := 204, body := .empty } },
         { createOk := true, reqTime := 0, transportOk := true,
           res := { status := 200,
                    body := .wellFormed (some "job1")
                      [{ FieldName := "indexname", Value := "main" },
                       { FieldName := "By", Value := "42.0" },
                       { FieldName := "splunk_server", Value := "x" }] } }]
        { createOk := true, transportOk := true, readOk := true,
          body := .empty } =
      { licenseDps := [{ ts := 0, value := 42, indexName := "main" }],
        throughputDps := [], errs := [] } :=
  ⟨by omega,
   C8_end_to_end 60000 0
     { createOk := true, transportOk := true, readOk := true, body := .empty }
     (by omega)⟩

end SplunkEnterpriseReceiver
